import Mathlib

/-!
Verification of the harmonic tide-prediction engine in
`ush/stofs_2d_glo/tide3.py`.

Modelling conventions:
* Python floats are modelled as exact rationals (`ℚ`); every IEEE double is a
  rational number, and the properties under study are control-flow and
  algebraic facts, not rounding facts.
* `math.pi` and `numpy.cos` are modelled as parameters `piF : ℚ` and
  `cosF : ℚ → ℚ`: the floating-point cosine routine is some function on
  (rational) doubles, and none of the verified properties depend on which
  function it is.
* numpy arrays of length 37 are modelled as functions `ℕ → ℚ`.
* Python exceptions are modelled with `Option`: `none` is a raised exception.
  Where the source mutates its arguments in place before an exception can be
  raised (the `read_*` loaders), the model returns the mutated state together
  with the error flag.
* text lines of the fixed-format data files are modelled as already-tokenised
  records (an `ℤ` year tag plus lists of integer fields); character-level
  slicing is below the granularity of every property proved here.
-/

namespace Tide3

/-- `NUMT = 37` from the source. -/
def NUMT : ℕ := 37

/-- `MAX_RES = 0.05` from the source (3 minutes, in hours). -/
def MAX_RES : ℚ := 0.05

/-- `TideConstitType` from the source: per-year (`xode`, `vpu`) and
per-station (`ang`, `amp`, `epoc`, `mllw`) constituent data, with the
sentinel keys `nsta = -1`, `year = -1` meaning "unloaded". -/
structure TideConstitType where
  mllw : ℤ := 0
  nsta : ℤ := -1
  year : ℤ := -1
  xode : ℕ → ℚ := fun _ => 0
  vpu : ℕ → ℚ := fun _ => 0
  ang : ℕ → ℚ := fun _ => 0
  amp : ℕ → ℚ := fun _ => 0
  epoc : ℕ → ℚ := fun _ => 0

/-- The pure harmonic sum of `tide_t` (source lines 524-533):
`z0 + Σ xode[i]·amp[i]·cos(π/180·(ang[i]·t + vpu[i] − epoc[i]))`, where the
`f_seasonal = false` branch sums `eqn[:14] + eqn[15] + eqn[17:]` exactly as
the source does. -/
def tide_eval (cosF : ℚ → ℚ) (piF : ℚ) (tc : TideConstitType) (t z0 : ℚ)
    (f_seasonal : Bool) : ℚ :=
  let eqn : ℕ → ℚ := fun i =>
    tc.xode i * tc.amp i * cosF (piF / 180 * (tc.ang i * t + tc.vpu i - tc.epoc i))
  if f_seasonal then
    z0 + ∑ i ∈ Finset.range NUMT, eqn i
  else
    z0 + (∑ i ∈ Finset.range 14, eqn i) + eqn 15 + ∑ i ∈ Finset.Ico 17 NUMT, eqn i

/-- `tide_t` from the source: raises (`none`) when the constituent record is
still in its sentinel state, otherwise returns the harmonic sum. -/
def tide_t (cosF : ℚ → ℚ) (piF : ℚ) (tc : TideConstitType) (t z0 : ℚ)
    (f_seasonal : Bool) : Option ℚ :=
  if tc.nsta < 1 ∨ tc.year = -1 then none
  else some (tide_eval cosF piF tc t z0 f_seasonal)

/-- `tide_hours` from the source: the vectorized form, evaluating the
broadcast `np.outer(ts, tc.ang)` (i.e. `ts[k]·ang[i]`) at
`ts[k] = initHour + k·delt` for `k < numHours`. -/
def tide_hours (cosF : ℚ → ℚ) (piF : ℚ) (tc : TideConstitType)
    (initHour z0 : ℚ) (f_seasonal : Bool) (numHours : ℕ) (delt : ℚ) :
    Option (List ℚ) :=
  if tc.nsta < 1 ∨ tc.year = -1 then none
  else
    some ((List.range numHours).map fun (k : ℕ) =>
      let t : ℚ := initHour + (k : ℚ) * delt
      let eqn : ℕ → ℚ := fun i =>
        tc.xode i * tc.amp i * cosF (piF / 180 * (t * tc.ang i + tc.vpu i - tc.epoc i))
      if f_seasonal then
        z0 + ∑ i ∈ Finset.range NUMT, eqn i
      else
        z0 + (∑ i ∈ Finset.range 14, eqn i) + eqn 15 + ∑ i ∈ Finset.Ico 17 NUMT, eqn i)

/-- Zeroing the two seasonal constituents (0-based indices 14 and 16), the
transformation the spec compares `f_seasonal = false` against. -/
def zeroSeasonal (tc : TideConstitType) : TideConstitType :=
  { tc with amp := fun i => if i = 14 ∨ i = 16 then 0 else tc.amp i }

lemma sum_skip_14_16 (f : ℕ → ℚ) :
    (∑ i ∈ Finset.range 14, f i) + f 15 + ∑ i ∈ Finset.Ico 17 37, f i
      = ∑ i ∈ Finset.range 37 \ {14, 16}, f i := by
  have h : Finset.range 37 \ {14, 16}
      = (Finset.range 14 ∪ {15}) ∪ Finset.Ico 17 37 := by decide
  rw [h, Finset.sum_union (by decide), Finset.sum_union (by decide),
    Finset.sum_singleton]

/-- C1: with loaded constituents, the non-seasonal synthesis is the harmonic
sum with exactly the terms at indices 14 and 16 removed, and it agrees with
the seasonal synthesis run on amplitudes zeroed at 14 and 16. -/
theorem tide_t_skips_seasonal (cosF : ℚ → ℚ) (piF : ℚ) (tc : TideConstitType)
    (t z0 : ℚ) (h1 : 1 ≤ tc.nsta) (h2 : tc.year ≠ -1) :
    tide_t cosF piF tc t z0 false
      = some (z0 + ∑ i ∈ Finset.range NUMT \ {14, 16},
          tc.xode i * tc.amp i
            * cosF (piF / 180 * (tc.ang i * t + tc.vpu i - tc.epoc i)))
    ∧ tide_t cosF piF tc t z0 false
        = tide_t cosF piF (zeroSeasonal tc) t z0 true := by
  have hg : ¬ (tc.nsta < 1 ∨ tc.year = -1) := by
    push_neg
    exact ⟨by omega, h2⟩
  set f : ℕ → ℚ := fun i =>
    tc.xode i * tc.amp i
      * cosF (piF / 180 * (tc.ang i * t + tc.vpu i - tc.epoc i)) with hf
  have hskip : tide_eval cosF piF tc t z0 false
      = z0 + ∑ i ∈ Finset.range 37 \ {14, 16}, f i := by
    show z0 + (∑ i ∈ Finset.range 14, f i) + f 15 + ∑ i ∈ Finset.Ico 17 NUMT, f i
      = z0 + ∑ i ∈ Finset.range 37 \ {14, 16}, f i
    rw [← sum_skip_14_16 f]
    simp only [NUMT]
    ring
  have hzg : ¬ ((zeroSeasonal tc).nsta < 1 ∨ (zeroSeasonal tc).year = -1) := hg
  constructor
  · rw [tide_t, if_neg hg, hskip]
    simp only [NUMT]
  · rw [tide_t, tide_t, if_neg hg, if_neg hzg, hskip]
    have hz : tide_eval cosF piF (zeroSeasonal tc) t z0 true
        = z0 + ∑ i ∈ Finset.range 37,
            (if i = 14 ∨ i = 16 then 0 else f i) := by
      show z0 + ∑ i ∈ Finset.range NUMT,
          (zeroSeasonal tc).xode i * (zeroSeasonal tc).amp i
            * cosF (piF / 180 * ((zeroSeasonal tc).ang i * t
                + (zeroSeasonal tc).vpu i - (zeroSeasonal tc).epoc i)) = _
    -- the zeroed amplitude turns exactly the terms 14 and 16 into 0
      congr 1
      refine Finset.sum_congr rfl fun i _ => ?_
      by_cases hic : i = 14 ∨ i = 16 <;>
        simp [zeroSeasonal, hic, hf]
    rw [hz]
    have hz2 : ∑ i ∈ Finset.range 37, (if i = 14 ∨ i = 16 then 0 else f i)
        = ∑ i ∈ Finset.range 37 \ {14, 16}, f i := by
      rw [← Finset.sum_subset (Finset.sdiff_subset)]
      · refine Finset.sum_congr rfl fun i hi => ?_
        have : ¬ (i = 14 ∨ i = 16) := by
          intro hc
          rcases hc with hc | hc <;> simp [hc] at hi
        simp [this]
      · intro i hi hni
        have : i = 14 ∨ i = 16 := by
          by_contra hc
          exact hni (Finset.mem_sdiff.mpr ⟨hi, by simpa using hc⟩)
        simp [this]
    rw [hz2]

/-- Witness for C1 at a concrete loaded constituent record. -/
theorem tide_t_skips_seasonal_witness :
    tide_t (fun _ => 1) 3 { nsta := 1, year := 2024 } 2 0 false
      = some (0 + ∑ i ∈ Finset.range NUMT \ {14, 16},
          (fun _ => (0 : ℚ)) i * (fun _ => (0 : ℚ)) i
            * (fun _ => (1 : ℚ)) ((3 : ℚ) / 180 * ((fun _ => (0 : ℚ)) i * 2
                + (fun _ => (0 : ℚ)) i - (fun _ => (0 : ℚ)) i)))
    ∧ tide_t (fun _ => 1) 3 { nsta := 1, year := 2024 } 2 0 false
        = tide_t (fun _ => 1) 3 (zeroSeasonal { nsta := 1, year := 2024 }) 2 0 true :=
  tide_t_skips_seasonal (fun _ => 1) 3 { nsta := 1, year := 2024 } 2 0
    (by decide) (by decide)

/-- C2: every sample of the vectorized `tide_hours` equals `tide_t`
evaluated at `initHour + k·delt`. -/
theorem tide_hours_eq_tide_t (cosF : ℚ → ℚ) (piF : ℚ) (tc : TideConstitType)
    (initHour z0 delt : ℚ) (f_seasonal : Bool) (numHours k : ℕ)
    (h1 : 1 ≤ tc.nsta) (h2 : tc.year ≠ -1) (hk : k < numHours) :
    (tide_hours cosF piF tc initHour z0 f_seasonal numHours delt).bind
        (fun l => l.get? k)
      = tide_t cosF piF tc (initHour + (k : ℚ) * delt) z0 f_seasonal := by
  have hg : ¬ (tc.nsta < 1 ∨ tc.year = -1) := by
    push_neg
    exact ⟨by omega, h2⟩
  rw [tide_hours, tide_t, if_neg hg, if_neg hg]
  have hget : ∀ (g : ℕ → ℚ), ((List.range numHours).map g).get? k = some (g k) := by
    intro g
    rw [List.get?_eq_get (by simpa using hk)]
    simp
  rw [Option.some_bind, hget]
  have harg : ∀ i : ℕ,
      (initHour + (k : ℚ) * delt) * tc.ang i = tc.ang i * (initHour + (k : ℚ) * delt) :=
    fun i => mul_comm _ _
  simp only [harg, tide_eval]

/-- Witness for C2 at a concrete loaded constituent record. -/
theorem tide_hours_eq_tide_t_witness :
    (tide_hours (fun _ => 1) 3 { nsta := 1, year := 2024 } 5 0 true 4 1).bind
        (fun l => l.get? 2)
      = tide_t (fun _ => 1) 3 { nsta := 1, year := 2024 } (5 + (2 : ℚ) * 1) 0 true :=
  tide_hours_eq_tide_t (fun _ => 1) 3 { nsta := 1, year := 2024 } 5 0 1 true 4 2
    (by decide) (by decide) (by decide)

/-- The initial tie-breaking loop of `tide_MaxMin` (source lines 644-646):
starting from `t1 = t - MAX_RES` with `z1` the height there, step left by
`MAX_RES` while the height equals the height `z` at `t`.  The source loop is
unbounded; the model indexes it by fuel and returns `none` at exhaustion. -/
def tide_tie (cosF : ℚ → ℚ) (piF : ℚ) (tc : TideConstitType) (z0 : ℚ)
    (f_seasonal : Bool) (z : ℚ) : ℕ → ℚ → ℚ → Option (ℚ × ℚ)
  | 0, _, _ => none
  | n + 1, t1, z1 =>
    if z1 = z then
      tide_tie cosF piF tc z0 f_seasonal z n (t1 - MAX_RES)
        (tide_eval cosF piF tc (t1 - MAX_RES) z0 f_seasonal)
    else some (t1, z1)

/-- The `while z1 < z2` walk of `tide_MaxMin` (source lines 651-653 and
677-680): `z2 := z1; t1 := t1 + delta; z1 := height t1` while `z1 < z2`.
Returns the final `(z2, t1)`.  Fuel-indexed like `tide_tie`. -/
def tide_walk_lt (cosF : ℚ → ℚ) (piF : ℚ) (tc : TideConstitType) (z0 : ℚ)
    (f_seasonal : Bool) (delta : ℚ) : ℕ → ℚ → ℚ → ℚ → Option (ℚ × ℚ)
  | 0, _, _, _ => none
  | n + 1, z1, z2, t1 =>
    if z1 < z2 then
      tide_walk_lt cosF piF tc z0 f_seasonal delta n
        (tide_eval cosF piF tc (t1 + delta) z0 f_seasonal) z1 (t1 + delta)
    else some (z2, t1)

/-- The `while z1 > z2` walk of `tide_MaxMin` (source lines 659-662 and
669-672), mirror image of `tide_walk_lt`. -/
def tide_walk_gt (cosF : ℚ → ℚ) (piF : ℚ) (tc : TideConstitType) (z0 : ℚ)
    (f_seasonal : Bool) (delta : ℚ) : ℕ → ℚ → ℚ → ℚ → Option (ℚ × ℚ)
  | 0, _, _, _ => none
  | n + 1, z1, z2, t1 =>
    if z1 > z2 then
      tide_walk_gt cosF piF tc z0 f_seasonal delta n
        (tide_eval cosF piF tc (t1 + delta) z0 f_seasonal) z1 (t1 + delta)
    else some (z2, t1)

/-- `tide_MaxMin` from the source: tie-break to the left, pick a direction
from the sign of the first difference, then walk to the two surrounding
turning points; returns `(hMax, tMax, hMin, tMin)`. -/
def tide_MaxMin (fuel : ℕ) (cosF : ℚ → ℚ) (piF : ℚ) (tc : TideConstitType)
    (t z0 : ℚ) (f_seasonal : Bool) : Option (ℚ × ℚ × ℚ × ℚ) :=
  if tc.nsta < 1 ∨ tc.year = -1 then none
  else
    let z := tide_eval cosF piF tc t z0 f_seasonal
    match tide_tie cosF piF tc z0 f_seasonal z fuel (t - MAX_RES)
        (tide_eval cosF piF tc (t - MAX_RES) z0 f_seasonal) with
    | none => none
    | some (t1, z1) =>
      if z1 < z then
        match tide_walk_lt cosF piF tc z0 f_seasonal (-MAX_RES) fuel z1 z t1 with
        | none => none
        | some (hMin, t1min) =>
          match tide_walk_gt cosF piF tc z0 f_seasonal MAX_RES fuel z hMin t with
          | none => none
          | some (hMax, t1max) =>
            some (hMax, t1max - MAX_RES, hMin, t1min + MAX_RES)
      else
        match tide_walk_gt cosF piF tc z0 f_seasonal (-MAX_RES) fuel z1 z t1 with
        | none => none
        | some (hMax, t1max) =>
          match tide_walk_lt cosF piF tc z0 f_seasonal MAX_RES fuel z hMax t with
          | none => none
          | some (hMin, t1min) =>
            some (hMax, t1max + MAX_RES, hMin, t1min - MAX_RES)

/-- `SecondaryType` from the source (descriptive metadata fields, which no
computation reads, are omitted). -/
structure SecondaryType where
  secSta : ℤ := -1
  maxTime : ℤ := 0
  minTime : ℤ := 0
  maxAdj : ℚ := 0
  minAdj : ℚ := 0
  maxInc : ℚ := 0
  minInc : ℚ := 0
  tc : TideConstitType := {}

/-- The fixed-point refinement loop of `secTide_t` (source lines 739-744),
run a fixed number of times (5 in the source):
`refT := locT − (minTime·(hMax−refZ) + maxTime·(refZ−hMin)) / ((hMax−hMin)·60)`
then re-synthesize `refZ` at the new `refT`. -/
def secIter (cosF : ℚ → ℚ) (piF : ℚ) (tc : TideConstitType) (z0 : ℚ)
    (f_seasonal : Bool) (locT : ℚ) (minTime maxTime : ℤ) (hMax hMin : ℚ) :
    ℕ → ℚ × ℚ → ℚ × ℚ
  | 0, p => p
  | n + 1, p =>
    let refT1 := locT - ((minTime : ℚ) * (hMax - p.2) + (maxTime : ℚ) * (p.2 - hMin))
      / ((hMax - hMin) * 60)
    secIter cosF piF tc z0 f_seasonal locT minTime maxTime hMax hMin n
      (refT1, tide_eval cosF piF tc refT1 z0 f_seasonal)

/-- `secTide_t` from the source: initial reference-time guess, one bracket
via `tide_MaxMin`, 5 refinement iterations, then the datum shift
(`+ mllw/1000`), the max/min-weighted multiplicative adjustment and the
(always zero-weighted) additive adjustment. -/
def secTide_t (fuel : ℕ) (cosF : ℚ → ℚ) (piF : ℚ) (st : SecondaryType)
    (locT z0 : ℚ) (f_seasonal : Bool) : Option ℚ :=
  if st.secSta < 1 then none
  else if st.tc.nsta < 1 ∨ st.tc.year = -1 then none
  else
    let refT := locT - (((st.maxTime : ℚ) + (st.minTime : ℚ)) / 2) / 60
    let refZ := tide_eval cosF piF st.tc refT z0 f_seasonal
    match tide_MaxMin fuel cosF piF st.tc refT z0 f_seasonal with
    | none => none
    | some (hMax, _tMax, hMin, _tMin) =>
      let p := secIter cosF piF st.tc z0 f_seasonal locT st.minTime st.maxTime
        hMax hMin 5 (refT, refZ)
      let refZ5 := p.2
      let locZ := refZ5 + (st.tc.mllw : ℚ) / 1000
      let locZ2 := locZ * (st.minAdj * (hMax - refZ5) + st.maxAdj * (refZ5 - hMin))
        / (hMax - hMin)
      let locZ3 := locZ2 + (st.maxInc * (hMax - refZ5) + st.minInc * (refZ5 - hMin))
        / (hMax - hMin)
      some locZ3

/-- The per-sample loop of `secTide_hours` (source lines 823-849): advance
the reference time by `delt`, re-bracket only when the advanced time has
passed both previously found extrema times, refine 5 times, and append the
adjusted height. -/
def secHoursLoop (fuel : ℕ) (cosF : ℚ → ℚ) (piF : ℚ) (st : SecondaryType)
    (z0 : ℚ) (f_seasonal : Bool) (delt : ℚ) :
    ℕ → ℚ → ℚ → ℚ × ℚ × ℚ × ℚ → List ℚ → Option (List ℚ)
  | 0, _, _, _, acc => some acc
  | n + 1, locT, refT, (hMax, tMax, hMin, tMin), acc =>
    let refT1 := refT + delt
    let refZ1 := tide_eval cosF piF st.tc refT1 z0 f_seasonal
    match (if refT1 > tMax ∧ refT1 > tMin
        then tide_MaxMin fuel cosF piF st.tc refT1 z0 f_seasonal
        else some (hMax, tMax, hMin, tMin)) with
    | none => none
    | some (hMax1, tMax1, hMin1, tMin1) =>
      let p := secIter cosF piF st.tc z0 f_seasonal locT st.minTime st.maxTime
        hMax1 hMin1 5 (refT1, refZ1)
      let refZ5 := p.2
      let z1 := (refZ5 + (st.tc.mllw : ℚ) / 1000)
          * (st.minAdj * (hMax1 - refZ5) + st.maxAdj * (refZ5 - hMin1)) / (hMax1 - hMin1)
        + (st.maxInc * (hMax1 - refZ5) + st.minInc * (refZ5 - hMin1)) / (hMax1 - hMin1)
      secHoursLoop fuel cosF piF st z0 f_seasonal delt n (locT + delt) p.1
        (hMax1, tMax1, hMin1, tMin1) (acc ++ [z1])

/-- `secTide_hours` from the source: sample 0 is computed exactly as
`secTide_t` (also caching bracket and refined reference time), then the
remaining samples run through `secHoursLoop`.  On `numHours = 0` the source
writes `zhr[0]` into an empty array (IndexError), modelled as `none`. -/
def secTide_hours (fuel : ℕ) (cosF : ℚ → ℚ) (piF : ℚ) (st : SecondaryType)
    (initHour z0 : ℚ) (f_seasonal : Bool) (numHours : ℕ) (delt : ℚ) :
    Option (List ℚ) :=
  if st.secSta < 1 then none
  else if st.tc.nsta < 1 ∨ st.tc.year = -1 then none
  else
    match numHours with
    | 0 => none
    | n + 1 =>
      let locT := initHour
      let refT := locT - (((st.maxTime : ℚ) + (st.minTime : ℚ)) / 2) / 60
      let refZ := tide_eval cosF piF st.tc refT z0 f_seasonal
      match tide_MaxMin fuel cosF piF st.tc refT z0 f_seasonal with
      | none => none
      | some (hMax, tMax, hMin, tMin) =>
        let p := secIter cosF piF st.tc z0 f_seasonal locT st.minTime st.maxTime
          hMax hMin 5 (refT, refZ)
        let refZ5 := p.2
        let z1 := (refZ5 + (st.tc.mllw : ℚ) / 1000)
            * (st.minAdj * (hMax - refZ5) + st.maxAdj * (refZ5 - hMin)) / (hMax - hMin)
          + (st.maxInc * (hMax - refZ5) + st.minInc * (refZ5 - hMin)) / (hMax - hMin)
        secHoursLoop fuel cosF piF st z0 f_seasonal delt n (locT + delt) p.1
          (hMax, tMax, hMin, tMin) [z1]

lemma secIter_zero_times (cosF : ℚ → ℚ) (piF : ℚ) (tc : TideConstitType)
    (z0 : ℚ) (s : Bool) (locT hMax hMin : ℚ) :
    ∀ n : ℕ, ∀ p : ℚ × ℚ,
      secIter cosF piF tc z0 s locT 0 0 hMax hMin (n + 1) p
        = (locT, tide_eval cosF piF tc locT z0 s) := by
  intro n
  induction n with
  | zero =>
    intro p
    simp [secIter]
  | succ m ih =>
    intro p
    rw [show m + 1 + 1 = (m + 1) + 1 from rfl, secIter]
    simp only [Int.cast_zero, zero_mul, add_zero, zero_div, sub_zero]
    exact ih _

/-- C8: with zero time offsets, unit amplitude scales, zero additive
adjustments and zero reference-station MLLW, the secondary transform is the
identity: whenever the bracketing high and low heights differ, `secTide_t`
returns exactly `tide_t` at the same time. -/
theorem secTide_t_identity (fuel : ℕ) (cosF : ℚ → ℚ) (piF : ℚ)
    (st : SecondaryType) (locT z0 : ℚ) (s : Bool) (hMax tMax hMin tMin : ℚ)
    (hsec : 1 ≤ st.secSta) (hn : 1 ≤ st.tc.nsta) (hy : st.tc.year ≠ -1)
    (hmaxT : st.maxTime = 0) (hminT : st.minTime = 0)
    (hmaxA : st.maxAdj = 1) (hminA : st.minAdj = 1)
    (hmaxI : st.maxInc = 0) (hminI : st.minInc = 0)
    (hmllw : st.tc.mllw = 0)
    (hbr : tide_MaxMin fuel cosF piF st.tc locT z0 s = some (hMax, tMax, hMin, tMin))
    (hne : hMax ≠ hMin) :
    secTide_t fuel cosF piF st locT z0 s = tide_t cosF piF st.tc locT z0 s := by
  have hg1 : ¬ st.secSta < 1 := by omega
  have hg2 : ¬ (st.tc.nsta < 1 ∨ st.tc.year = -1) := by
    push_neg
    exact ⟨by omega, hy⟩
  have hrefT : locT - (((st.maxTime : ℚ) + (st.minTime : ℚ)) / 2) / 60 = locT := by
    rw [hmaxT, hminT]
    norm_num
  have hsub : hMax - hMin ≠ 0 := sub_ne_zero.mpr hne
  rw [secTide_t, if_neg hg1, if_neg hg2, tide_t, if_neg hg2]
  simp only [hmaxT, hminT, Int.cast_zero, add_zero, zero_div, sub_zero]
  simp only [hbr]
  have h5 : secIter cosF piF st.tc z0 s locT 0 0 hMax hMin 5
      (locT, tide_eval cosF piF st.tc locT z0 s)
      = (locT, tide_eval cosF piF st.tc locT z0 s) :=
    secIter_zero_times cosF piF st.tc z0 s locT hMax hMin 4 _
  rw [h5]
  simp only [hmllw, hmaxA, hminA, hmaxI, hminI, Int.cast_zero, zero_div,
    add_zero, one_mul, zero_mul, zero_add]
  rw [show (hMax - tide_eval cosF piF st.tc locT z0 s)
      + (tide_eval cosF piF st.tc locT z0 s - hMin) = hMax - hMin by ring]
  rw [mul_div_assoc, div_self hsub, mul_one]

/-- A computable cosine stand-in used only to build concrete witnesses:
a tent-shaped curve with a local minimum at 0 and local maxima at `±1/10`,
scaled by `1/37` so that the 37 identical constituents of `tcW` sum back to
the tent. -/
def cosW : ℚ → ℚ := fun x => max (min x (1 / 5 - x)) (-x) / 37

/-- A concrete loaded constituent record whose 37 constituents are all
identical, giving height `z0 + 37·cosW t` at `piF = 180`. -/
def tcW : TideConstitType :=
  { nsta := 1, year := 2024, xode := fun _ => 1, amp := fun _ => 1, ang := fun _ => 1 }

/-- A concrete secondary station with the identity adjustment parameters. -/
def stW : SecondaryType := { secSta := 1, maxAdj := 1, minAdj := 1, tc := tcW }

lemma tide_tie_ne (cosF : ℚ → ℚ) (piF : ℚ) (tc : TideConstitType) (z0 : ℚ)
    (s : Bool) (z : ℚ) (n : ℕ) (t1 z1 : ℚ) (hn : n ≠ 0) (h : ¬ z1 = z) :
    tide_tie cosF piF tc z0 s z n t1 z1 = some (t1, z1) := by
  cases n with
  | zero => exact absurd rfl hn
  | succ m => rw [tide_tie, if_neg h]

lemma tide_walk_lt_step (cosF : ℚ → ℚ) (piF : ℚ) (tc : TideConstitType)
    (z0 : ℚ) (s : Bool) (delta : ℚ) (n : ℕ) (z1 z2 t1 : ℚ) (hn : n ≠ 0)
    (h : z1 < z2) :
    tide_walk_lt cosF piF tc z0 s delta n z1 z2 t1
      = tide_walk_lt cosF piF tc z0 s delta (n - 1)
          (tide_eval cosF piF tc (t1 + delta) z0 s) z1 (t1 + delta) := by
  cases n with
  | zero => exact absurd rfl hn
  | succ m => rw [tide_walk_lt, if_pos h, Nat.succ_sub_one]

lemma tide_walk_lt_stop (cosF : ℚ → ℚ) (piF : ℚ) (tc : TideConstitType)
    (z0 : ℚ) (s : Bool) (delta : ℚ) (n : ℕ) (z1 z2 t1 : ℚ) (hn : n ≠ 0)
    (h : ¬ z1 < z2) :
    tide_walk_lt cosF piF tc z0 s delta n z1 z2 t1 = some (z2, t1) := by
  cases n with
  | zero => exact absurd rfl hn
  | succ m => rw [tide_walk_lt, if_neg h]

lemma tide_walk_gt_step (cosF : ℚ → ℚ) (piF : ℚ) (tc : TideConstitType)
    (z0 : ℚ) (s : Bool) (delta : ℚ) (n : ℕ) (z1 z2 t1 : ℚ) (hn : n ≠ 0)
    (h : z1 > z2) :
    tide_walk_gt cosF piF tc z0 s delta n z1 z2 t1
      = tide_walk_gt cosF piF tc z0 s delta (n - 1)
          (tide_eval cosF piF tc (t1 + delta) z0 s) z1 (t1 + delta) := by
  cases n with
  | zero => exact absurd rfl hn
  | succ m => rw [tide_walk_gt, if_pos h, Nat.succ_sub_one]

lemma tide_walk_gt_stop (cosF : ℚ → ℚ) (piF : ℚ) (tc : TideConstitType)
    (z0 : ℚ) (s : Bool) (delta : ℚ) (n : ℕ) (z1 z2 t1 : ℚ) (hn : n ≠ 0)
    (h : ¬ z1 > z2) :
    tide_walk_gt cosF piF tc z0 s delta n z1 z2 t1 = some (z2, t1) := by
  cases n with
  | zero => exact absurd rfl hn
  | succ m => rw [tide_walk_gt, if_neg h]

lemma tcW_eval (t z0 : ℚ) :
    tide_eval cosW 180 tcW t z0 true = z0 + max (min t (1 / 5 - t)) (-t) := by
  rw [tide_eval]
  simp only [if_pos, tcW, cosW, NUMT, one_mul, mul_one, add_zero, sub_zero]
  rw [Finset.sum_const, Finset.card_range, nsmul_eq_mul]
  norm_num
  ring

lemma tide_MaxMin_tcW :
    tide_MaxMin 9 cosW 180 tcW (1 / 20) 0 true = some (1 / 10, 1 / 10, 0, 0) := by
  have e1 : tide_eval cosW 180 tcW (1 / 20) 0 true = 1 / 20 := by
    rw [tcW_eval]
    norm_num [max_def, min_def]
  have e0 : tide_eval cosW 180 tcW (1 / 20 - MAX_RES) 0 true = 0 := by
    rw [tcW_eval]
    norm_num [MAX_RES, max_def, min_def]
  have em : tide_eval cosW 180 tcW (1 / 20 - MAX_RES + -MAX_RES) 0 true = 1 / 20 := by
    rw [tcW_eval]
    norm_num [MAX_RES, max_def, min_def]
  have e2 : tide_eval cosW 180 tcW (1 / 20 + MAX_RES) 0 true = 1 / 10 := by
    rw [tcW_eval]
    norm_num [MAX_RES, max_def, min_def]
  have e3 : tide_eval cosW 180 tcW (1 / 20 + MAX_RES + MAX_RES) 0 true = 1 / 20 := by
    rw [tcW_eval]
    norm_num [MAX_RES, max_def, min_def]
  have hguard : ¬ (tcW.nsta < 1 ∨ tcW.year = -1) := by decide
  rw [tide_MaxMin, if_neg hguard]
  simp only [e0, e1]
  rw [tide_tie_ne _ _ _ _ _ _ _ _ _ (by norm_num) (by norm_num)]
  simp only [e2, e3, em]
  rw [if_pos (by norm_num : (0 : ℚ) < 1 / 20)]
  rw [tide_walk_lt_step _ _ _ _ _ _ _ _ _ _ (by norm_num) (by norm_num)]
  rw [em]
  rw [tide_walk_lt_stop _ _ _ _ _ _ _ _ _ _ (by norm_num) (by norm_num)]
  simp only [e2, e3, em]
  rw [tide_walk_gt_step _ _ _ _ _ _ _ _ _ _ (by norm_num) (by norm_num)]
  rw [e2]
  rw [tide_walk_gt_step _ _ _ _ _ _ _ _ _ _ (by norm_num) (by norm_num)]
  rw [e3]
  rw [tide_walk_gt_stop _ _ _ _ _ _ _ _ _ _ (by norm_num) (by norm_num)]
  norm_num [MAX_RES]

/-- Witness for C8: at station `stW`, time `1/20`, the bracket evaluates to
`(1/10, 1/10, 0, 0)` and the secondary prediction coincides with the
primary synthesis. -/
theorem secTide_t_identity_witness :
    secTide_t 9 cosW 180 stW (1 / 20) 0 true = tide_t cosW 180 stW.tc (1 / 20) 0 true :=
  secTide_t_identity 9 cosW 180 stW (1 / 20) 0 true (1 / 10) (1 / 10) 0 0
    (by decide) (by decide) (by decide) rfl rfl rfl rfl rfl rfl rfl
    tide_MaxMin_tcW (by norm_num)

/-- C9: the only failure modes of `secTide_t` (and of `secTide_hours`, here
at a single sample) are an uninitialised secondary station, unloaded
constituents, or a non-returning extrema search.  In particular there is no
guard on `hMax = hMin`: the time-refinement and max/min-weighted divisions
by `hMax − hMin` are applied unconditionally, with no degenerate-case error
branch. -/
theorem secTide_no_degenerate_guard (fuel : ℕ) (cosF : ℚ → ℚ) (piF : ℚ)
    (st : SecondaryType) (locT z0 delt : ℚ) (s : Bool) :
    ((secTide_t fuel cosF piF st locT z0 s).isSome ↔
      (¬ st.secSta < 1 ∧ ¬ (st.tc.nsta < 1 ∨ st.tc.year = -1)
        ∧ (tide_MaxMin fuel cosF piF st.tc
            (locT - (((st.maxTime : ℚ) + (st.minTime : ℚ)) / 2) / 60) z0 s).isSome))
    ∧ ((secTide_hours fuel cosF piF st locT z0 s 1 delt).isSome ↔
      (¬ st.secSta < 1 ∧ ¬ (st.tc.nsta < 1 ∨ st.tc.year = -1)
        ∧ (tide_MaxMin fuel cosF piF st.tc
            (locT - (((st.maxTime : ℚ) + (st.minTime : ℚ)) / 2) / 60) z0 s).isSome)) := by
  constructor
  · rw [secTide_t]
    by_cases h1 : st.secSta < 1
    · simp [h1]
    by_cases h2 : st.tc.nsta < 1 ∨ st.tc.year = -1
    · simp [h1, h2]
    cases hbr : tide_MaxMin fuel cosF piF st.tc
        (locT - (((st.maxTime : ℚ) + (st.minTime : ℚ)) / 2) / 60) z0 s with
    | none => simp [h1, h2, hbr]
    | some q =>
      obtain ⟨hMax, tMax, hMin, tMin⟩ := q
      simp [h1, h2, hbr]
  · rw [secTide_hours]
    by_cases h1 : st.secSta < 1
    · simp [h1]
    by_cases h2 : st.tc.nsta < 1 ∨ st.tc.year = -1
    · simp [h1, h2]
    cases hbr : tide_MaxMin fuel cosF piF st.tc
        (locT - (((st.maxTime : ℚ) + (st.minTime : ℚ)) / 2) / 60) z0 s with
    | none => simp [h1, h2, hbr]
    | some q =>
      obtain ⟨hMax, tMax, hMin, tMin⟩ := q
      simp [h1, h2, hbr, secHoursLoop]

/-- A loaded constituent record with all arrays zero: the synthesized curve
is constant (`z0`), the degenerate flat case for the tie-breaking loop. -/
def flatTC : TideConstitType := { nsta := 1, year := 2024 }

lemma tide_eval_flat (cosF : ℚ → ℚ) (piF t z0 : ℚ) (s : Bool) :
    tide_eval cosF piF flatTC t z0 s = z0 := by
  cases s <;> simp [tide_eval, flatTC]

lemma tide_tie_flat (cosF : ℚ → ℚ) (piF z0 : ℚ) (s : Bool) :
    ∀ (n : ℕ) (t1 : ℚ), tide_tie cosF piF flatTC z0 s z0 n t1 z0 = none := by
  intro n
  induction n with
  | zero => intro t1; rfl
  | succ m ih =>
    intro t1
    rw [tide_tie, if_pos rfl, tide_eval_flat]
    exact ih _

lemma tide_MaxMin_flat (cosF : ℚ → ℚ) (piF t z0 : ℚ) (s : Bool) (n : ℕ) :
    tide_MaxMin n cosF piF flatTC t z0 s = none := by
  have hguard : ¬ (flatTC.nsta < 1 ∨ flatTC.year = -1) := by decide
  simp only [tide_MaxMin, if_neg hguard, tide_eval_flat, tide_tie_flat]

/-- Counterexample for C10: on the all-zero-amplitude (flat) constituent
set, the tie-breaking loop never exits, so no amount of fuel makes
`tide_MaxMin` return a bracket: the claimed termination fails at this
concrete input. -/
theorem tide_MaxMin_flat_no_termination :
    ¬ ∃ n : ℕ, (tide_MaxMin n (fun _ => 0) 0 flatTC 0 0 true).isSome := by
  rintro ⟨n, hn⟩
  rw [tide_MaxMin_flat] at hn
  simp at hn

lemma tide_tie_some_of_ne (cosF : ℚ → ℚ) (piF : ℚ) (tc : TideConstitType)
    (z0 : ℚ) (s : Bool) (z : ℚ) :
    ∀ (m : ℕ) (t1 : ℚ),
      tide_eval cosF piF tc (t1 - (m : ℚ) * MAX_RES) z0 s ≠ z →
      (tide_tie cosF piF tc z0 s z (m + 1) t1
        (tide_eval cosF piF tc t1 z0 s)).isSome := by
  intro m
  induction m with
  | zero =>
    intro t1 h
    have h' : tide_eval cosF piF tc t1 z0 s ≠ z := by
      have harg : t1 - ((0 : ℕ) : ℚ) * MAX_RES = t1 := by push_cast; ring
      rwa [harg] at h
    rw [tide_tie, if_neg h']
    rfl
  | succ m ih =>
    intro t1 h
    rw [tide_tie]
    by_cases he : tide_eval cosF piF tc t1 z0 s = z
    · rw [if_pos he]
      have h2 : tide_eval cosF piF tc (t1 - MAX_RES - (m : ℚ) * MAX_RES) z0 s ≠ z := by
        have harg : t1 - MAX_RES - (m : ℚ) * MAX_RES
            = t1 - (((m + 1 : ℕ) : ℚ)) * MAX_RES := by push_cast; ring
        rwa [harg]
      exact ih _ h2
    · rw [if_neg he]
      rfl

lemma tide_tie_ne_of_some (cosF : ℚ → ℚ) (piF : ℚ) (tc : TideConstitType)
    (z0 : ℚ) (s : Bool) (z : ℚ) :
    ∀ (n : ℕ) (t1 : ℚ),
      (tide_tie cosF piF tc z0 s z n t1
        (tide_eval cosF piF tc t1 z0 s)).isSome →
      ∃ j : ℕ, tide_eval cosF piF tc (t1 - (j : ℚ) * MAX_RES) z0 s ≠ z := by
  intro n
  induction n with
  | zero =>
    intro t1 h
    simp [tide_tie] at h
  | succ m ih =>
    intro t1 h
    rw [tide_tie] at h
    by_cases he : tide_eval cosF piF tc t1 z0 s = z
    · rw [if_pos he] at h
      obtain ⟨j, hj⟩ := ih (t1 - MAX_RES) h
      refine ⟨j + 1, ?_⟩
      have harg : t1 - (((j + 1 : ℕ)) : ℚ) * MAX_RES
          = t1 - MAX_RES - (j : ℚ) * MAX_RES := by push_cast; ring
      rwa [harg]
    · exact ⟨0, by simpa using he⟩

/-- C10 amended: the tie-breaking loop of `tide_MaxMin` exits for some fuel
(i.e. after finitely many steps in the source) iff the synthesized curve is
non-constant on the leftward `MAX_RES` grid below `t`; on a curve that is
constant there — for example all amplitudes zero — it never exits. -/
theorem tide_tie_terminates_iff (cosF : ℚ → ℚ) (piF : ℚ)
    (tc : TideConstitType) (t z0 : ℚ) (s : Bool) :
    (∃ n : ℕ, (tide_tie cosF piF tc z0 s (tide_eval cosF piF tc t z0 s) n
        (t - MAX_RES) (tide_eval cosF piF tc (t - MAX_RES) z0 s)).isSome)
      ↔ ∃ k : ℕ, tide_eval cosF piF tc (t - ((k : ℚ) + 1) * MAX_RES) z0 s
          ≠ tide_eval cosF piF tc t z0 s := by
  constructor
  · rintro ⟨n, hn⟩
    obtain ⟨j, hj⟩ := tide_tie_ne_of_some cosF piF tc z0 s
      (tide_eval cosF piF tc t z0 s) n (t - MAX_RES) hn
    refine ⟨j, ?_⟩
    have harg : t - ((j : ℚ) + 1) * MAX_RES = t - MAX_RES - (j : ℚ) * MAX_RES := by
      ring
    rwa [harg]
  · rintro ⟨k, hk⟩
    refine ⟨k + 1, tide_tie_some_of_ne cosF piF tc z0 s
      (tide_eval cosF piF tc t z0 s) k (t - MAX_RES) ?_⟩
    have harg : t - MAX_RES - (k : ℚ) * MAX_RES = t - ((k : ℚ) + 1) * MAX_RES := by
      ring
    rwa [harg]

/-- A line of the yearly (`ft03`) dataset, already tokenised: the leading
4-digit year tag (`int(line[:4])`) and the sequence of 8-character fields,
each a pair of a 4-digit `xode·1000` and a 4-digit `vpu·10` integer. -/
structure Line3 where
  iyr : ℤ
  vals : List (ℤ × ℤ)

/-- The field loop of `read_format_ft03` (source lines 115-118): for
`i in beg..e` consume one field pair and store `xode[i-1] = a/1000`,
`vpu[i-1] = b/10`.  Running out of fields models the `int('')` parse
failure on a short line; fields already consumed stay written. -/
def ft03_fields (vals : List (ℤ × ℤ)) (beg e : ℕ) (xode vpu : ℕ → ℚ) :
    Option Unit × (ℕ → ℚ) × (ℕ → ℚ) :=
  if beg > e then (some (), xode, vpu)
  else
    match vals with
    | [] => (none, xode, vpu)
    | (a, b) :: rest =>
      ft03_fields rest (beg + 1) e
        (Function.update xode (beg - 1) ((a : ℚ) / 1000))
        (Function.update vpu (beg - 1) ((b : ℚ) / 10))

/-- `read_format_ft03` from the source: parse the year tag, then store the
field pairs for indices `beg..e`; returns the parsed year tag on success,
together with the (possibly partially) updated arrays. -/
def read_format_ft03 (line : Line3) (beg e : ℕ) (xode vpu : ℕ → ℚ) :
    Option ℤ × (ℕ → ℚ) × (ℕ → ℚ) :=
  match ft03_fields line.vals beg e xode vpu with
  | (none, x, v) => (none, x, v)
  | (some _, x, v) => (some line.iyr, x, v)

/-- The tail loop of `read_ft03` (source lines 165-169): read one more line
per remaining range, EOF-checked; the year tag parsed from these lines is
assigned but never compared against the requested year. -/
def ft03_tail : List Line3 → List (ℕ × ℕ) → (ℕ → ℚ) → (ℕ → ℚ) →
    Option Unit × (ℕ → ℚ) × (ℕ → ℚ)
  | _, [], xode, vpu => (some (), xode, vpu)
  | file, (beg, e) :: segs, xode, vpu =>
    match file with
    | [] => (none, xode, vpu)
    | l :: rest =>
      match read_format_ft03 l beg e xode vpu with
      | (none, x, v) => (none, x, v)
      | (some _, x, v) => ft03_tail rest segs x v

/-- `read_ft03` from the source: read the first line for the dataset start
year, fail if the requested year precedes it, skip `5·(iyear−iyr1) − 1`
lines, read the year block's first line (validating its year tag against
the requested year), then the block's remaining four lines through
`ft03_tail`. -/
def read_ft03 (file : List Line3) (iyear : ℤ) (xode vpu : ℕ → ℚ) :
    Option Unit × (ℕ → ℚ) × (ℕ → ℚ) :=
  match file with
  | [] => (none, xode, vpu)
  | line0 :: rest =>
    let iyr1 := line0.iyr
    if iyear < iyr1 then (none, xode, vpu)
    else
      let rest2 := rest.drop (((iyear - iyr1) * 5 - 1).toNat)
      match (if iyear = iyr1 then some (line0, rest2)
          else match rest2 with
            | [] => none
            | l :: r => some (l, r)) with
      | none => (none, xode, vpu)
      | some (line, rest3) =>
        match read_format_ft03 line 1 8 xode vpu with
        | (none, x, v) => (none, x, v)
        | (some iyr1b, x, v) =>
          if iyear ≠ iyr1b then (none, x, v)
          else ft03_tail rest3 [(9, 16), (17, 24), (25, 32), (33, NUMT)] x v

/-- A line of the station (`ft07`) dataset, tokenised in the three ways the
source slices a raw line: the leading integer (`int(line[:3])` or
`int(line[:6])`, absent when the line is too short), the 10-character
integer fields of the speed header, and the 9-character amplitude/epoch
pairs following the 8-character skip.  Which view is consumed depends on
the line's position in the file, exactly as in the source. -/
structure Line7 where
  lead : Option ℤ := none
  tenFields : List ℤ := []
  pairFields : List (ℤ × ℤ) := []

/-- `read_ang_ft07` from the source: store `ang[i-1] = v/10000000` for
`i in beg..e`, consuming one 10-character field per index. -/
def read_ang_ft07 (vals : List ℤ) (beg e : ℕ) (ang : ℕ → ℚ) :
    Option Unit × (ℕ → ℚ) :=
  if beg > e then (some (), ang)
  else
    match vals with
    | [] => (none, ang)
    | v :: rest =>
      read_ang_ft07 rest (beg + 1) e
        (Function.update ang (beg - 1) ((v : ℚ) / 10000000))

/-- `read_amp_epoc_ft07` from the source: after the 8-character skip, store
`amp[i-1] = a/1000`, `epoc[i-1] = b/10` for `i in beg..e`, consuming one
9-character field pair per index. -/
def read_amp_epoc_ft07 (vals : List (ℤ × ℤ)) (beg e : ℕ)
    (amp epoc : ℕ → ℚ) : Option Unit × (ℕ → ℚ) × (ℕ → ℚ) :=
  if beg > e then (some (), amp, epoc)
  else
    match vals with
    | [] => (none, amp, epoc)
    | (a, b) :: rest =>
      read_amp_epoc_ft07 rest (beg + 1) e
        (Function.update amp (beg - 1) ((a : ℚ) / 1000))
        (Function.update epoc (beg - 1) ((b : ℚ) / 10))

/-- The speed-header loop of `read_ft07` (source lines 274-280): `n` lines
starting at line index `i`, line `i` covering `j1 = 1+(i-1)·7` through
`min NUMT (j1+6)`; EOF-checked.  Returns the remaining file on success. -/
def ft07_angLines : List Line7 → ℕ → ℕ → (ℕ → ℚ) →
    Option Unit × (ℕ → ℚ) × List Line7
  | file, _, 0, ang => (some (), ang, file)
  | file, i, n + 1, ang =>
    let j1 := 1 + (i - 1) * 7
    let j2 := if NUMT < j1 + 6 then NUMT else j1 + 6
    match file with
    | [] => (none, ang, [])
    | l :: rest =>
      match read_ang_ft07 l.tenFields j1 j2 ang with
      | (none, a) => (none, a, rest)
      | (some _, a) => ft07_angLines rest (i + 1) n a

/-- The amplitude/epoch block loop of `read_ft07` (source lines 303-310):
one line per range tuple, EOF-checked. -/
def ft07_ampLines : List Line7 → List (ℕ × ℕ) → (ℕ → ℚ) → (ℕ → ℚ) →
    Option Unit × (ℕ → ℚ) × (ℕ → ℚ)
  | _, [], amp, epoc => (some (), amp, epoc)
  | file, (beg, e) :: segs, amp, epoc =>
    match file with
    | [] => (none, amp, epoc)
    | l :: rest =>
      match read_amp_epoc_ft07 l.pairFields beg e amp epoc with
      | (none, a, p) => (none, a, p)
      | (some _, a, p) => ft07_ampLines rest segs a p

/-- `read_ft07` from the source: six speed-header lines, skip
`8·(nsta−1)` lines (each EOF-checked), validate the 3-digit station id,
read the 6-digit MLLW, then six amplitude/epoch lines; returns the MLLW on
success, and the possibly partially updated arrays in every case. -/
def read_ft07 (file : List Line7) (nsta : ℤ) (ang amp epoc : ℕ → ℚ) :
    Option ℤ × (ℕ → ℚ) × (ℕ → ℚ) × (ℕ → ℚ) :=
  match ft07_angLines file 1 6 ang with
  | (none, a, _) => (none, a, amp, epoc)
  | (some _, a, rest) =>
    let nrec := (8 * (nsta - 1)).toNat
    if rest.length < nrec then (none, a, amp, epoc)
    else
      match rest.drop nrec with
      | [] => (none, a, amp, epoc)
      | lsta :: rest2 =>
        match lsta.lead with
        | none => (none, a, amp, epoc)
        | some sid =>
          if nsta ≠ sid then (none, a, amp, epoc)
          else
            match rest2 with
            | [] => (none, a, amp, epoc)
            | lmllw :: rest3 =>
              match lmllw.lead with
              | none => (none, a, amp, epoc)
              | some mllw =>
                match ft07_ampLines rest3
                    [(1, 7), (8, 14), (15, 21), (22, 28), (29, 35), (36, 37)]
                    amp epoc with
                | (none, am, ep) => (none, a, am, ep)
                | (some _, am, ep) => (some mllw, a, am, ep)

/-- The station half of `LoadConstit` (source lines 345-347): assign the
cache key `tc.nsta := nsta` first, then read; `tc.mllw` is assigned only
from a successful read. -/
def LoadConstit_station (tc : TideConstitType) (ft07 : List Line7)
    (nsta : ℤ) : Option Unit × TideConstitType :=
  if tc.nsta ≠ nsta then
    let tc1 : TideConstitType := { tc with nsta := nsta }
    match read_ft07 ft07 nsta tc1.ang tc1.amp tc1.epoc with
    | (none, a, am, ep) => (none, { tc1 with ang := a, amp := am, epoc := ep })
    | (some m, a, am, ep) =>
      (some (), { tc1 with ang := a, amp := am, epoc := ep, mllw := m })
  else (some (), tc)

/-- `LoadConstit` from the source.  Note the order of operations: each
cache key (`tc.year`, `tc.nsta`) is assigned BEFORE the corresponding read
runs; a read failure (exception) propagates after that assignment and
after any partial in-place array writes, so the returned state carries the
new key with the old or partially overwritten arrays. -/
def LoadConstit (tc : TideConstitType) (ft03 : List Line3)
    (ft07 : List Line7) (year nsta : ℤ) : Option Unit × TideConstitType :=
  if tc.year ≠ year then
    let tc1 : TideConstitType := { tc with year := year }
    match read_ft03 ft03 year tc1.xode tc1.vpu with
    | (none, x, v) => (none, { tc1 with xode := x, vpu := v })
    | (some _, x, v) =>
      LoadConstit_station { tc1 with xode := x, vpu := v } ft07 nsta
  else LoadConstit_station tc ft07 nsta

/-- Eight zero field pairs: a fully populated `ft03` line payload. -/
def pairs8 : List (ℤ × ℤ) :=
  [(0, 0), (0, 0), (0, 0), (0, 0), (0, 0), (0, 0), (0, 0), (0, 0)]

/-- An `ft03` file whose first block line carries year tag 2000 but whose
remaining four block lines carry the alien year tag 9999. -/
def badFt03 : List Line3 :=
  [⟨2000, pairs8⟩, ⟨9999, pairs8⟩, ⟨9999, pairs8⟩, ⟨9999, pairs8⟩, ⟨9999, pairs8⟩]

/-- A well-formed one-year `ft03` file, every line tagged 2000. -/
def goodFt03 : List Line3 :=
  [⟨2000, pairs8⟩, ⟨2000, pairs8⟩, ⟨2000, pairs8⟩, ⟨2000, pairs8⟩, ⟨2000, pairs8⟩]

/-- Counterexample for C6: `read_ft03` succeeds on a file whose block lines
2-5 carry a year tag (9999) different from the requested year 2000 — the
tags of those lines are parsed but never validated. -/
theorem read_ft03_accepts_bad_tail_tags :
    (read_ft03 badFt03 2000 (fun _ => 0) (fun _ => 0)).1 = some ()
      ∧ (badFt03.get? 1).map Line3.iyr = some 9999 :=
  ⟨rfl, rfl⟩

/-- The year tag of the line that `read_ft03` reads as the first line of
the requested year's block (the only tag it compares against `iyear`). -/
def ft03_blockTag (file : List Line3) (iyear : ℤ) : Option ℤ :=
  match file with
  | [] => none
  | line0 :: rest =>
    if iyear = line0.iyr then some line0.iyr
    else ((rest.drop (((iyear - line0.iyr) * 5 - 1).toNat)).head?).map Line3.iyr

/-- C6 amended: `read_ft03` fails on an empty file, fails when the
requested year precedes the dataset's first year, fails on a missing line
within the block, and validates exactly one year tag: a successful load
forces the tag of the block's FIRST line to equal the requested year (the
four remaining tags are parsed but never checked, per the counterexample). -/
theorem read_ft03_validates_first_tag_only :
    (∀ (y : ℤ) (x v : ℕ → ℚ), (read_ft03 [] y x v).1 = none)
    ∧ (∀ (line0 : Line3) (rest : List Line3) (y : ℤ) (x v : ℕ → ℚ),
        y < line0.iyr → (read_ft03 (line0 :: rest) y x v).1 = none)
    ∧ (∀ (file : List Line3) (y : ℤ) (x v : ℕ → ℚ),
        (read_ft03 file y x v).1 = some () → ft03_blockTag file y = some y)
    ∧ (∀ (beg e : ℕ) (segs : List (ℕ × ℕ)) (x v : ℕ → ℚ),
        (ft03_tail [] ((beg, e) :: segs) x v).1 = none) := by
  refine ⟨fun y x v => rfl, fun line0 rest y x v hy => ?_, ?_, fun beg e segs x v => rfl⟩
  · rw [read_ft03, if_pos hy]
  · intro file y x v h
    cases file with
    | nil => simp [read_ft03] at h
    | cons line0 rest =>
      rw [read_ft03] at h
      by_cases hlt : y < line0.iyr
      · rw [if_pos hlt] at h
        simp at h
      rw [if_neg hlt] at h
      by_cases hy : y = line0.iyr
      · simp [ft03_blockTag, hy]
      · simp only [if_neg hy] at h
        cases hd : (rest.drop (((y - line0.iyr) * 5 - 1).toNat)) with
        | nil =>
          rw [hd] at h
          simp at h
        | cons l r =>
          rw [hd] at h
          rcases hff : ft03_fields l.vals 1 8 x v with ⟨o2, x2, v2⟩
          simp only [read_format_ft03, hff] at h
          cases o2 with
          | none => simp at h
          | some u =>
            by_cases hne : y ≠ l.iyr
            · simp [hne] at h
            · push_neg at hne
              show (if y = line0.iyr then some line0.iyr
                  else ((rest.drop (((y - line0.iyr) * 5 - 1).toNat)).head?).map
                    Line3.iyr)
                = some y
              rw [if_neg hy, hd]
              simp [hne]

/-- Witness for C6 amended: on the well-formed file the load succeeds and
the theorem pins the block's first tag to the requested year 2000. -/
theorem read_ft03_validates_first_tag_only_witness :
    ft03_blockTag goodFt03 2000 = some 2000 :=
  read_ft03_validates_first_tag_only.2.2.1 goodFt03 2000
    (fun _ => 0) (fun _ => 0) rfl

/-- A loaded constituent record for year 2000, station 1, with constant
arrays: the cached state before a failing call. -/
def tcLoaded : TideConstitType :=
  { mllw := 7, nsta := 1, year := 2000, xode := fun _ => 5, vpu := fun _ => 5,
    ang := fun _ => 5, amp := fun _ => 5, epoc := fun _ => 5 }

/-- Counterexample for C7: loading year 2001 from an empty ft03 file fails,
yet the cached year key has been mutated from 2000 to 2001 — the previous
valid key is not left intact, so a retry for 2001 would skip the read and
use the stale arrays. -/
theorem LoadConstit_fail_mutates_year_key :
    (LoadConstit tcLoaded [] [] 2001 1).1 = none
      ∧ (LoadConstit tcLoaded [] [] 2001 1).2.year = 2001
      ∧ tcLoaded.year = 2000 :=
  ⟨rfl, rfl, rfl⟩

/-- C7 amended: each cache key is assigned BEFORE its read runs, so even a
failing load carries the newly requested key (year, and station when the
station read runs); per-dimension isolation does hold — a failing year
read leaves every station field (`nsta`, `ang`, `amp`, `epoc`, `mllw`)
unchanged and aborts before the station load, a station-only load leaves
the year fields (`year`, `xode`, `vpu`) unchanged, and `mllw` is updated
only by a successful station read. -/
theorem LoadConstit_key_set_before_read (tc : TideConstitType)
    (ft03 : List Line3) (ft07 : List Line7) (year nsta : ℤ) :
    (tc.year ≠ year → (LoadConstit tc ft03 ft07 year nsta).2.year = year)
    ∧ (tc.year ≠ year → (read_ft03 ft03 year tc.xode tc.vpu).1 = none →
        (LoadConstit tc ft03 ft07 year nsta).1 = none
        ∧ (LoadConstit tc ft03 ft07 year nsta).2.nsta = tc.nsta
        ∧ (LoadConstit tc ft03 ft07 year nsta).2.ang = tc.ang
        ∧ (LoadConstit tc ft03 ft07 year nsta).2.amp = tc.amp
        ∧ (LoadConstit tc ft03 ft07 year nsta).2.epoc = tc.epoc
        ∧ (LoadConstit tc ft03 ft07 year nsta).2.mllw = tc.mllw)
    ∧ (tc.year = year →
        (LoadConstit tc ft03 ft07 year nsta).2.year = tc.year
        ∧ (LoadConstit tc ft03 ft07 year nsta).2.xode = tc.xode
        ∧ (LoadConstit tc ft03 ft07 year nsta).2.vpu = tc.vpu)
    ∧ (tc.year = year → tc.nsta ≠ nsta →
        (LoadConstit tc ft03 ft07 year nsta).2.nsta = nsta
        ∧ ((read_ft07 ft07 nsta tc.ang tc.amp tc.epoc).1 = none →
            (LoadConstit tc ft03 ft07 year nsta).1 = none
            ∧ (LoadConstit tc ft03 ft07 year nsta).2.mllw = tc.mllw)) := by
  refine ⟨?_, ?_, ?_, ?_⟩
  · intro hy
    rw [LoadConstit, if_pos hy]
    rcases hr : read_ft03 ft03 year tc.xode tc.vpu with ⟨o, x, v⟩
    cases o with
    | none => simp [hr]
    | some u =>
      simp only [hr]
      rw [LoadConstit_station]
      by_cases hn : nsta = nsta
      · by_cases hns : ({ tc with year := year, xode := x, vpu := v }
            : TideConstitType).nsta ≠ nsta
        · rw [if_pos hns]
          rcases hr7 : read_ft07 ft07 nsta
              ({ tc with year := year, xode := x, vpu := v }
                : TideConstitType).ang
              ({ tc with year := year, xode := x, vpu := v }
                : TideConstitType).amp
              ({ tc with year := year, xode := x, vpu := v }
                : TideConstitType).epoc with ⟨o7, a7, m7, e7⟩
          cases o7 <;> simp [hr7]
        · rw [if_neg hns]
      · exact absurd rfl hn
  · intro hy hr
    rw [LoadConstit, if_pos hy]
    rcases hr3 : read_ft03 ft03 year tc.xode tc.vpu with ⟨o, x, v⟩
    rw [hr3] at hr
    cases o with
    | none => simp [hr3]
    | some u => simp at hr
  · intro hy
    rw [LoadConstit, if_neg (by simp [hy])]
    rw [LoadConstit_station]
    by_cases hns : tc.nsta ≠ nsta
    · rw [if_pos hns]
      rcases hr7 : read_ft07 ft07 nsta tc.ang tc.amp tc.epoc with ⟨o7, a7, m7, e7⟩
      cases o7 <;> simp [hr7]
    · rw [if_neg hns]
      exact ⟨rfl, rfl, rfl⟩
  · intro hy hns
    rw [LoadConstit, if_neg (by simp [hy])]
    simp only [LoadConstit_station, if_pos hns]
    rcases hr7 : read_ft07 ft07 nsta tc.ang tc.amp tc.epoc with ⟨o7, a7, m7, e7⟩
    cases o7 with
    | none => simp [hr7]
    | some m =>
      simp only [hr7]
      exact ⟨trivial, fun h7 => by simp at h7⟩

/-- Witness for C7 amended: a failing load for year 2002, station 3 on a
fresh (sentinel) record still sets the year key to 2002. -/
theorem LoadConstit_key_set_before_read_witness :
    (LoadConstit {} [] [] 2002 3).2.year = 2002 :=
  (LoadConstit_key_set_before_read {} [] [] 2002 3).1 (by decide)

/-- The loaded content of the two constituent files, as deterministic
functions of their keys: `read_ft03` populates `xode`/`vpu` from the year
alone, and `read_ft07` populates `mllw`/`ang`/`amp`/`epoc` from the
station alone (the speed table is global to the file).  `TideC_stn` calls
`LoadConstit` before synthesizing and after every year-boundary crossing,
so at each synthesis the cached record equals `loadTC files year station`. -/
structure TideFiles where
  yearXode : ℤ → ℕ → ℚ
  yearVpu : ℤ → ℕ → ℚ
  staMllw : ℤ → ℤ
  staAng : ℤ → ℕ → ℚ
  staAmp : ℤ → ℕ → ℚ
  staEpoc : ℤ → ℕ → ℚ

/-- The constituent record `LoadConstit` leaves for `(year, nsta)`. -/
def loadTC (files : TideFiles) (year nsta : ℤ) : TideConstitType :=
  { mllw := files.staMllw nsta, nsta := nsta, year := year,
    xode := files.yearXode year, vpu := files.yearVpu year,
    ang := files.staAng nsta, amp := files.staAmp nsta,
    epoc := files.staEpoc nsta }

/-- The year-length computation of `TideC_stn` (source lines 990-993 and
1000-1003): `366·24` hours in a Gregorian leap year, else `365·24`. -/
def totHourOf (year : ℤ) : ℤ :=
  if year % 4 = 0 ∧ (year % 100 ≠ 0 ∨ year % 400 = 0) then 366 * 24
  else 365 * 24

/-- The year-boundary test of `TideC_stn` (source line 927): the direct
(non-chunked) path is taken iff `numHour + initHour < 365·24`, with no
leap-year adjustment. -/
def TideC_direct (initHour numHour : ℤ) : Bool :=
  decide (numHour + initHour < 365 * 24)

/-- The day-chunk loop of `TideC_stn` (source lines 995-1040) for primary
stations: while hours remain, first roll over the year boundary if reached
(adjusting `initHour`, advancing the year, recomputing the year length and
reloading constituents), then synthesize min(24, remaining) hours and
append them; finally advance `initHour` by 24 and drop 24 remaining
hours. -/
def TideC_chunks (cosF : ℚ → ℚ) (piF : ℚ) (files : TideFiles) (station : ℤ)
    (z0 : ℚ) (f_seasonal : Bool) (delt : ℚ) (year initHour numHour totHour : ℤ)
    (data : List ℚ) : Option (List ℚ) :=
  if 0 < numHour then
    let year1 := if initHour ≥ totHour then year + 1 else year
    let initHour1 := if initHour ≥ totHour then initHour - totHour else initHour
    let totHour1 := if initHour ≥ totHour then totHourOf (year + 1) else totHour
    match tide_hours cosF piF (loadTC files year1 station) (initHour1 : ℚ) z0
        f_seasonal (if numHour > 24 then 24 else numHour).toNat delt with
    | none => none
    | some zhr =>
      TideC_chunks cosF piF files station z0 f_seasonal delt year1
        (initHour1 + 24) (numHour - 24) totHour1 (data ++ zhr)
  else some data
termination_by numHour.toNat
decreasing_by
  simp_wf
  omega

/-- The baseline adjustment of `TideC_stn` (source lines 910-919): a
primary station ADDS its own MLLW to the baseline when `add_mllw` is set;
a secondary station SUBTRACTS the embedded reference station's MLLW when
`add_mllw` is NOT set. -/
def TideC_initHeight (initHeight : ℚ) (mllw : ℤ) (is_secondary add_mllw : Bool) : ℚ :=
  if ¬ is_secondary then
    (if add_mllw then initHeight + (mllw : ℚ) / 1000 else initHeight)
  else
    (if ¬ add_mllw then initHeight - (mllw : ℚ) / 1000 else initHeight)

/-- The `hourly` path of `TideC_stn` for a primary station, with the date
already converted to `(year, initHour)` as the source does at lines
902-906: validate `delt`, the station and the year range, load the
constituents, adjust the baseline, then either delegate directly to
`tide_hours` or run the day-chunk loop (source lines 880-1042). -/
def TideC_hourly (cosF : ℚ → ℚ) (piF : ℚ) (files : TideFiles) (station : ℤ)
    (year initHour numHour : ℤ) (initHeight : ℚ) (f_seasonal add_mllw : Bool)
    (delt : ℚ) : Option (List ℚ) :=
  if delt ≠ 1 ∧ (delt > 1 ∨ delt * (numHour : ℚ) > 24) then none
  else if station = -1 then none
  else if ¬ (1800 ≤ year ∧ year ≤ 2045) then none
  else
    let tc := loadTC files year station
    let z0 := TideC_initHeight initHeight tc.mllw false add_mllw
    if TideC_direct initHour numHour then
      tide_hours cosF piF tc (initHour : ℚ) z0 f_seasonal numHour.toNat delt
    else
      let endHour0 := 24 - initHour % 24
      let endHour := if endHour0 > numHour then numHour else endHour0
      match tide_hours cosF piF tc (initHour : ℚ) z0 f_seasonal endHour.toNat delt with
      | none => none
      | some zhr =>
        TideC_chunks cosF piF files station z0 f_seasonal delt year
          (initHour + endHour) (numHour - endHour) (totHourOf year) zhr

/-- Counterexample for C4: for a secondary station with `add_mllw = false`
the reference station's MLLW is SUBTRACTED from the caller's baseline
(source line 919), not added: with baseline 0 and MLLW 1000 the code
produces −1, not +1. -/
theorem TideC_secondary_mllw_subtracted :
    ¬ TideC_initHeight 0 1000 true false = 0 + (1000 : ℚ) / 1000
      ∧ TideC_initHeight 0 1000 true false = 0 - (1000 : ℚ) / 1000 := by
  constructor <;> norm_num [TideC_initHeight]

/-- C4 amended: for secondary-station queries the reference station's MLLW
is SUBTRACTED from the caller's baseline when `add_mllw` is false and the
baseline is left unchanged when `add_mllw` is true; the subtraction is
exactly cancelled by the `+ mllw/1000` datum shift the secondary predictor
applies to the synthesized reference height before scaling, which is what
keeps the two paths datum-consistent. -/
theorem TideC_secondary_mllw_amended :
    (∀ (h : ℚ) (mllw : ℤ),
      TideC_initHeight h mllw true false = h - (mllw : ℚ) / 1000)
    ∧ (∀ (h : ℚ) (mllw : ℤ), TideC_initHeight h mllw true true = h)
    ∧ (∀ (cosF : ℚ → ℚ) (piF : ℚ) (tc : TideConstitType) (t h : ℚ) (s : Bool),
        tide_eval cosF piF tc t (TideC_initHeight h tc.mllw true false) s
            + (tc.mllw : ℚ) / 1000
          = tide_eval cosF piF tc t h s) := by
  refine ⟨fun h mllw => by norm_num [TideC_initHeight],
    fun h mllw => by norm_num [TideC_initHeight], ?_⟩
  intro cosF piF tc t h s
  have hinit : TideC_initHeight h tc.mllw true false = h - (tc.mllw : ℚ) / 1000 := by
    norm_num [TideC_initHeight]
  rw [hinit]
  cases s <;>
    · simp only [tide_eval, Bool.false_eq_true, if_false, if_true]
      ring

/-- Counterexample for C5: in leap year 2024 a request with
`startHour = 8760`, `hourCount = 4` stays within the year
(8764 ≤ 8784 = totHourOf 2024) yet the direct path is NOT taken — the
source's test uses `365·24` regardless of leap years. -/
theorem TideC_direct_ignores_leap :
    ¬ (TideC_direct 8760 4 = true ↔ 8760 + 4 ≤ totHourOf 2024) := by
  decide

/-- C5 amended: the direct (non-chunked) delegation is taken iff
`startHour + hourCount < 365·24 = 8760`, regardless of leap status (the
leap rule, which does make 2024 worth `366·24` hours and 2023 `365·24`,
is used only for the chunk lengths inside the chunked path); whenever the
test passes, `TideC_hourly` delegates directly to `tide_hours`. -/
theorem TideC_direct_amended :
    (∀ initHour numHour : ℤ,
      TideC_direct initHour numHour = true ↔ numHour + initHour < 365 * 24)
    ∧ totHourOf 2024 = 366 * 24
    ∧ totHourOf 2023 = 365 * 24
    ∧ (∀ (cosF : ℚ → ℚ) (piF : ℚ) (files : TideFiles)
        (station year initHour numHour : ℤ) (h : ℚ) (s m : Bool),
        1 ≤ station → 1800 ≤ year → year ≤ 2045 →
        TideC_direct initHour numHour = true →
        TideC_hourly cosF piF files station year initHour numHour h s m 1
          = tide_hours cosF piF (loadTC files year station) (initHour : ℚ)
              (TideC_initHeight h ((loadTC files year station).mllw) false m)
              s numHour.toNat 1) := by
  refine ⟨fun i n => by simp [TideC_direct], by decide, by decide, ?_⟩
  intro cosF piF files station year initHour numHour h s m hsta hy1 hy2 hdir
  rw [TideC_hourly]
  rw [if_neg (by norm_num)]
  rw [if_neg (by omega)]
  rw [if_neg (by omega)]
  rw [if_pos hdir]

/-- All-zero file content, used to instantiate driver witnesses. -/
def files0 : TideFiles :=
  ⟨fun _ _ => 0, fun _ _ => 0, fun _ => 0, fun _ _ => 0, fun _ _ => 0, fun _ _ => 0⟩

/-- Witness for C5 amended: a 24-hour request at hour 0 of 2024 delegates
directly. -/
theorem TideC_direct_amended_witness :
    TideC_hourly (fun _ => 0) 0 files0 1 2024 0 24 0 true false 1
      = tide_hours (fun _ => 0) 0 (loadTC files0 2024 1) ((0 : ℤ) : ℚ)
          (TideC_initHeight 0 ((loadTC files0 2024 1).mllw) false false)
          true (24 : ℤ).toNat 1 :=
  TideC_direct_amended.2.2.2 (fun _ => 0) 0 files0 1 2024 0 24 0 true false
    (by decide) (by decide) (by decide) (by decide)

/-- C3: the 2023→2024 year-boundary request (year 2023, start hour 8759,
4 hours) returns exactly the one-hour request at (2023, 8759) concatenated
with the three-hour request at (2024, 0): the chunking and the constituent
reload at the boundary reproduce two independent within-year requests. -/
theorem TideC_year_boundary (cosF : ℚ → ℚ) (piF : ℚ) (files : TideFiles)
    (station : ℤ) (h : ℚ) (s m : Bool) (hsta : 1 ≤ station) :
    TideC_hourly cosF piF files station 2023 8759 4 h s m 1
      = (TideC_hourly cosF piF files station 2023 8759 1 h s m 1).bind
          (fun a => (TideC_hourly cosF piF files station 2024 0 3 h s m 1).map
            (fun b => a ++ b)) := by
  have hstane : ¬ station = -1 := by omega
  have hg2023 : ¬ ((loadTC files (2023 : ℤ) station).nsta < 1
      ∨ (loadTC files (2023 : ℤ) station).year = -1) := by
    simp only [loadTC]
    push_neg
    exact ⟨by omega, by norm_num⟩
  have hg2024 : ¬ ((loadTC files (2024 : ℤ) station).nsta < 1
      ∨ (loadTC files (2024 : ℤ) station).year = -1) := by
    simp only [loadTC]
    push_neg
    exact ⟨by omega, by norm_num⟩
  have hmllw : ∀ y : ℤ, (loadTC files y station).mllw = files.staMllw station :=
    fun _ => rfl
  simp only [TideC_hourly, TideC_direct, hmllw, hstane]
  norm_num
  simp only [tide_hours, hg2023, hg2024]
  norm_num [Int.toNat_ofNat]
  rw [TideC_chunks.eq_def]
  norm_num [totHourOf]
  simp only [tide_hours, hg2024]
  norm_num
  rw [TideC_chunks.eq_def]
  norm_num
  rw [TideC_chunks.eq_def]
  norm_num

/-- Witness for C3 at all-zero file content and station 1. -/
theorem TideC_year_boundary_witness :
    TideC_hourly (fun _ => 0) 0 files0 1 2023 8759 4 0 true false 1
      = (TideC_hourly (fun _ => 0) 0 files0 1 2023 8759 1 0 true false 1).bind
          (fun a =>
            (TideC_hourly (fun _ => 0) 0 files0 1 2024 0 3 0 true false 1).map
              (fun b => a ++ b)) :=
  TideC_year_boundary (fun _ => 0) 0 files0 1 0 true false (by decide)

end Tide3
